import Mathlib

/-!
Shallow embedding of the financial ledger subsystem of the school-management
backend (`src/financial.py`, routes `create_invoice`, `create_payment`,
`get_invoices`, `get_outstanding_report`), together with theorems settling the
specification claims about it.

Moneys are `Decimal` in the source and are embedded as `ℚ`; dates are embedded
as day counts (`Int`); database tables are lists of records; each route is a
pure function from (database, caller, request data) to (HTTP result, database).
-/

namespace SchoolFin

/-- HTTP-level outcome of a route call: `ok code payload` or `err code message`,
mirroring `jsonify(...), code` in the Flask handlers. -/
inductive ApiResult (α : Type) where
  | ok (code : Nat) (val : α)
  | err (code : Nat) (msg : String)
deriving DecidableEq, Repr

/-- Whether an `ApiResult` is a success. -/
def ApiResult.isOk {α : Type} : ApiResult α → Bool
  | .ok _ _ => true
  | .err _ _ => false

/-- A row of the `Invoice` table (`src/models/financial.py`, fields as read and
written by `src/financial.py`). `due_date` and `issue_date` are day numbers. -/
structure Invoice where
  invoice_id : Nat
  student_id : Nat
  fee_id : Nat
  invoice_number : String
  amount : ℚ
  discount : ℚ
  total_amount : ℚ
  issue_date : Int
  due_date : Int
  status : String
deriving DecidableEq, Repr

/-- A row of the `Payment` table, fields as written by `create_payment`. -/
structure Payment where
  payment_id : Nat
  invoice_id : Nat
  student_id : Nat
  payment_method : String
  amount : ℚ
  transaction_id : Option String
  status : String
  processed_by : Nat
deriving DecidableEq, Repr

/-- A row of the `Student` table, as used by the financial routes: the link
from a user account (`user_id`) to a student profile (`student_id`). -/
structure StudentRec where
  student_id : Nat
  user_id : Nat
deriving DecidableEq, Repr

/-- The persistent store visible to the financial routes. -/
structure DB where
  invoices : List Invoice
  payments : List Payment
  students : List StudentRec
deriving DecidableEq, Repr

/-- The authenticated caller attached by `token_required`
(`request.current_user`): a `user_id` and a `role_type` string. -/
structure Caller where
  user_id : Nat
  role_type : String
deriving DecidableEq, Repr

/-- Python truthiness of an optional integer field (`data.get(f)` is falsy when
the key is absent or the value is `0`). -/
def natFalsy : Option Nat → Bool
  | none => true
  | some n => n == 0

/-- Python truthiness of an optional string field (falsy when absent or `""`). -/
def strFalsy : Option String → Bool
  | none => true
  | some s => s == ""

/-- Python truthiness of an optional decimal field (falsy when absent or `0`). -/
def ratFalsy : Option ℚ → Bool
  | none => true
  | some q => q == 0

/-- `Invoice.query.get(invoice_id)`: primary-key lookup. -/
def findInvoice (db : DB) (iid : Nat) : Option Invoice :=
  db.invoices.find? (fun i => i.invoice_id == iid)

/-- `Student.query.filter_by(user_id=current_user_id).first()`. -/
def findStudentByUser (db : DB) (uid : Nat) : Option StudentRec :=
  db.students.find? (fun s => s.user_id == uid)

/-- Modelled from the spec: `Invoice.calculate_balance` is defined in
`src/models/financial.py`, which is not among the provided sources (only its
caller in `src/financial.py` is). The spec defines it as
`total_amount − Σ(amount of Payments on this invoice where status=Completed)`,
pure and always recomputed from the payment rows. -/
def calculate_balance (db : DB) (inv : Invoice) : ℚ :=
  inv.total_amount -
    ((db.payments.filter
        (fun p => p.invoice_id == inv.invoice_id && p.status == "Completed")).map
      Payment.amount).sum

/-- The permission check of `create_payment` (`src/financial.py` lines
332-338): a student caller must have a profile owning the invoice; otherwise
the role must be `admin` or `staff`. -/
def paymentAuth (db : DB) (caller : Caller) (inv : Invoice) : Bool :=
  if caller.role_type == "student" then
    match findStudentByUser db caller.user_id with
    | none => false
    | some st => inv.student_id == st.student_id
  else
    caller.role_type == "admin" || caller.role_type == "staff"

/-- The JSON body of `POST /payments`. -/
structure PaymentData where
  invoice_id : Option Nat
  payment_method : Option String
  amount : Option ℚ
  transaction_id : Option String
  status : Option String
deriving DecidableEq, Repr

/-- `POST /payments` (`create_payment` in `src/financial.py`): required-field
checks, invoice lookup, permission check, positivity and outstanding-balance
validation, then the payment insert and the transactional invoice-status
update (`new_balance ≤ 0 → Paid`, else `Pending → Partial`). -/
def create_payment (db : DB) (caller : Caller) (data : PaymentData) :
    ApiResult Payment × DB :=
  if natFalsy data.invoice_id then (.err 400 "invoice_id is required", db)
  else if strFalsy data.payment_method then
    (.err 400 "payment_method is required", db)
  else if ratFalsy data.amount then (.err 400 "amount is required", db)
  else
    match findInvoice db (data.invoice_id.getD 0) with
    | none => (.err 404 "Invoice not found", db)
    | some invoice =>
      if !paymentAuth db caller invoice then (.err 403 "Access denied", db)
      else
        let amount := data.amount.getD 0
        if amount ≤ 0 then (.err 400 "Payment amount must be positive", db)
        else
          let outstanding_balance := calculate_balance db invoice
          if outstanding_balance < amount then
            (.err 400 "Payment amount exceeds outstanding balance", db)
          else
            let payment : Payment :=
              { payment_id := db.payments.length + 1
                invoice_id := invoice.invoice_id
                student_id := invoice.student_id
                payment_method := data.payment_method.getD ""
                amount := amount
                transaction_id := data.transaction_id
                status := data.status.getD "Completed"
                processed_by := caller.user_id }
            let new_balance := outstanding_balance - amount
            let newStatus :=
              if new_balance ≤ 0 then "Paid"
              else if invoice.status == "Pending" then "Partial"
              else invoice.status
            (.ok 201 payment,
              { db with
                payments := db.payments ++ [payment]
                invoices := db.invoices.map (fun i =>
                  if i.invoice_id == invoice.invoice_id then
                    { i with status := newStatus }
                  else i) })

/-- Zero-padding of `create_invoice`'s counter: Python `f"INV{n:06d}"` pads the
decimal digits of `n` with leading zeros to width 6 (wider numbers keep all
their digits). -/
def zeroPad (w : Nat) (n : Nat) : String :=
  let s := toString n
  String.mk (List.replicate (w - s.length) '0') ++ s

/-- Modelled from the spec: the route `create_invoice` constructs the
`Invoice` row without passing `status`, whose initial value comes from the
`Invoice` model in `src/models/financial.py`, which is not among the provided
sources. The spec says: "Persist with status initialized to Pending (or Paid
if total_amount ≤ 0, edge case)". -/
def initialStatus (total_amount : ℚ) : String :=
  if total_amount ≤ 0 then "Paid" else "Pending"

/-- The JSON body of `POST /invoices`. Dates are day numbers. -/
structure InvoiceData where
  student_id : Option Nat
  fee_id : Option Nat
  amount : Option ℚ
  discount : Option ℚ
  issue_date : Option Int
  due_date : Option Int
deriving DecidableEq, Repr

/-- `POST /invoices` (`create_invoice` in `src/financial.py`), guarded by
`role_required(['admin', 'staff'])`: required-field checks, sequential
invoice-number generation from `Invoice.query.count() + 1`,
`total_amount = amount - discount` (no negativity check in the source), and
the insert. `today` stands for `date.today()`. -/
def create_invoice (today : Int) (db : DB) (caller : Caller)
    (data : InvoiceData) : ApiResult Invoice × DB :=
  if !(caller.role_type == "admin" || caller.role_type == "staff") then
    (.err 403 "Insufficient permissions", db)
  else if natFalsy data.student_id then (.err 400 "student_id is required", db)
  else if natFalsy data.fee_id then (.err 400 "fee_id is required", db)
  else if ratFalsy data.amount then (.err 400 "amount is required", db)
  else if !(data.due_date.isSome) then (.err 400 "due_date is required", db)
  else
    let invoice_count := db.invoices.length + 1
    let invoice_number := "INV" ++ zeroPad 6 invoice_count
    let amount := data.amount.getD 0
    let discount := data.discount.getD 0
    let total_amount := amount - discount
    let invoice : Invoice :=
      { invoice_id := db.invoices.length + 1
        student_id := data.student_id.getD 0
        fee_id := data.fee_id.getD 0
        invoice_number := invoice_number
        amount := amount
        discount := discount
        total_amount := total_amount
        issue_date := data.issue_date.getD today
        due_date := data.due_date.getD 0
        status := initialStatus total_amount }
    (.ok 201 invoice, { db with invoices := db.invoices ++ [invoice] })

/-- Insert `x` after every element whose key is at least `key x`: the helper of
the stable descending sort below. -/
def insertDesc {α : Type} (key : α → Int) (x : α) : List α → List α
  | [] => [x]
  | y :: ys => if key y < key x then x :: y :: ys else y :: insertDesc key x ys

/-- Stable sort in descending key order, the semantics of Python's
`list.sort(key=..., reverse=True)`: elements with equal keys keep their
original relative order. -/
def sortDesc {α : Type} (key : α → Int) (l : List α) : List α :=
  l.foldl (fun acc x => insertDesc key x acc) []

/-- One entry of the outstanding report: the invoice together with its
`outstanding_amount` and `days_overdue` annotations. -/
structure OutstandingRow where
  invoice : Invoice
  outstanding_amount : ℚ
  days_overdue : Int
deriving DecidableEq, Repr

/-- The row built for one invoice of the outstanding report, provided its
outstanding amount is positive (`src/financial.py` lines 487-500). -/
def outstandingRow (today : Int) (db : DB) (inv : Invoice) :
    Option OutstandingRow :=
  let out := calculate_balance db inv
  if 0 < out then
    some { invoice := inv
           outstanding_amount := out
           days_overdue := if inv.due_date < today then today - inv.due_date else 0 }
  else none

/-- `GET /reports/outstanding` (`get_outstanding_report` in `src/financial.py`),
admin/staff only: rows for invoices with status in {Pending, Partial, Overdue}
and positive outstanding amount, sorted by `days_overdue` descending with
Python's stable sort. The role gate is omitted here: the claims about this
report concern its payload. -/
def get_outstanding_report (today : Int) (db : DB) : List OutstandingRow :=
  sortDesc (fun r => r.days_overdue)
    ((db.invoices.filter (fun i =>
        i.status == "Pending" || i.status == "Partial" || i.status == "Overdue")).filterMap
      (outstandingRow today db))

/-- The query-string arguments of `GET /invoices`. -/
structure ListArgs where
  student_id : Option Nat
  status : Option String
  page : Option Int
  per_page : Option Int
deriving DecidableEq, Repr

/-- The successful payload of `GET /invoices`: the page of invoices and the
echoed pagination parameters. -/
structure InvoiceListing where
  invoices : List Invoice
  page : Int
  per_page : Int
deriving DecidableEq, Repr

/-- Flask-SQLAlchemy `paginate(page=?, per_page=?, error_out=False)`: an
out-of-range low page is clamped to 1, and the page is the `per_page`-sized
window starting at offset `(page - 1) * per_page`. -/
def paginate {α : Type} (page per_page : Int) (l : List α) : List α :=
  let page := if page < 1 then 1 else page
  ((l.drop ((page - 1) * per_page).toNat).take per_page.toNat)

/-- The `status` query filter of `get_invoices` (`if status: filter_by`). -/
def statusFilter (args : ListArgs) (l : List Invoice) : List Invoice :=
  if strFalsy args.status then l
  else l.filter (fun i => i.status == args.status.getD "")

/-- The successful page built by `get_invoices` from the already role- and
status-filtered rows: order by `issue_date` descending and paginate. -/
def listingPage (args : ListArgs) (filtered : List Invoice) : InvoiceListing :=
  { invoices := paginate (args.page.getD 1) (min (args.per_page.getD 20) 100)
      (sortDesc Invoice.issue_date filtered)
    page := args.page.getD 1
    per_page := min (args.per_page.getD 20) 100 }

/-- `GET /invoices` (`get_invoices` in `src/financial.py`): role-based
filtering (students see only their own invoices, parents are denied, other
non-admin/staff roles are denied), the `student_id` filter applied only for
admin/staff callers, the `status` filter, ordering by `issue_date` descending,
and pagination with `per_page` capped at 100 (default 20, `page` default 1). -/
def get_invoices (db : DB) (caller : Caller) (args : ListArgs) :
    ApiResult InvoiceListing :=
  if caller.role_type == "student" then
    match findStudentByUser db caller.user_id with
    | none => .err 404 "Student profile not found"
    | some st =>
      .ok 200 (listingPage args
        (statusFilter args
          (db.invoices.filter (fun i => i.student_id == st.student_id))))
  else if caller.role_type == "parent" then .err 403 "Access denied"
  else if !(caller.role_type == "admin" || caller.role_type == "staff") then
    .err 403 "Access denied"
  else
    let rowsForRole :=
      if natFalsy args.student_id then db.invoices
      else db.invoices.filter (fun i => i.student_id == args.student_id.getD 0)
    .ok 200 (listingPage args (statusFilter args rowsForRole))

/-- A pending invoice of student 7 over 100 with nothing paid yet. -/
def invA : Invoice :=
  { invoice_id := 1, student_id := 7, fee_id := 1, invoice_number := "INV000001"
    amount := 100, discount := 0, total_amount := 100
    issue_date := 0, due_date := 5, status := "Pending" }

/-- A store holding just `invA` and the profile of student 7 (user 3). -/
def dbA : DB :=
  { invoices := [invA], payments := []
    students := [{ student_id := 7, user_id := 3 }] }

/-- An admin caller. -/
def cAdmin : Caller := { user_id := 1, role_type := "admin" }

/-- A payment body asking to pay 150 against invoice 1. -/
def payTooMuch : PaymentData :=
  { invoice_id := some 1, payment_method := some "cash", amount := some 150
    transaction_id := none, status := none }

/-- A payment body asking to pay −5 against invoice 1. -/
def payNegative : PaymentData :=
  { invoice_id := some 1, payment_method := some "cash", amount := some (-5)
    transaction_id := none, status := none }

/-- An empty store. -/
def emptyDB : DB := { invoices := [], payments := [], students := [] }

/-- An invoice-creation body whose discount (100) exceeds its amount (50). -/
def invoiceReqNeg : InvoiceData :=
  { student_id := some 7, fee_id := some 1, amount := some 50
    discount := some 100, issue_date := none, due_date := some 30 }

/-- The invoice the source persists for `invoiceReqNeg`: its `total_amount` is
the negative value −50. -/
def invNeg : Invoice :=
  { invoice_id := 1, student_id := 7, fee_id := 1, invoice_number := "INV000001"
    amount := 50, discount := 100, total_amount := -50
    issue_date := 0, due_date := 30, status := "Paid" }

/-- A well-formed invoice-creation body: amount 100, no discount. -/
def invoiceReqOk : InvoiceData :=
  { student_id := some 7, fee_id := some 1, amount := some 100
    discount := none, issue_date := some 2, due_date := some 30 }

/-- The invoice persisted for `invoiceReqOk` on an empty store. -/
def invB : Invoice :=
  { invoice_id := 1, student_id := 7, fee_id := 1, invoice_number := "INV000001"
    amount := 100, discount := 0, total_amount := 100
    issue_date := 2, due_date := 30, status := "Pending" }

/-- The invoice persisted by a second creation (`invoiceReqOk` again) on the
store already holding `invB`. -/
def invB2 : Invoice :=
  { invoice_id := 2, student_id := 7, fee_id := 1, invoice_number := "INV000002"
    amount := 100, discount := 0, total_amount := 100
    issue_date := 2, due_date := 30, status := "Pending" }

/-- The payment row `create_payment` inserts on success. -/
def newPayment (db : DB) (caller : Caller) (data : PaymentData) (inv : Invoice)
    (a : ℚ) : Payment :=
  { payment_id := db.payments.length + 1
    invoice_id := inv.invoice_id
    student_id := inv.student_id
    payment_method := data.payment_method.getD ""
    amount := a
    transaction_id := data.transaction_id
    status := data.status.getD "Completed"
    processed_by := caller.user_id }

/-- The status `create_payment` writes back to the invoice on success:
`Paid` when the computed new balance is ≤ 0, else `Partial` when the invoice
was `Pending`, else the old status. -/
def paymentStatusUpdate (db : DB) (inv : Invoice) (a : ℚ) : String :=
  if calculate_balance db inv - a ≤ 0 then "Paid"
  else if inv.status == "Pending" then "Partial"
  else inv.status

/-- The store after a successful `create_payment`: the payment row appended
and the referenced invoice's status recomputed. -/
def postDB (db : DB) (caller : Caller) (data : PaymentData) (inv : Invoice)
    (a : ℚ) : DB :=
  { db with
    payments := db.payments ++ [newPayment db caller data inv a]
    invoices := db.invoices.map (fun i =>
      if i.invoice_id == inv.invoice_id then
        { i with status := paymentStatusUpdate db inv a }
      else i) }

/-- An Overdue invoice of 100 with nothing paid. -/
def invOver : Invoice :=
  { invoice_id := 1, student_id := 7, fee_id := 1, invoice_number := "INV000001"
    amount := 100, discount := 0, total_amount := 100
    issue_date := 0, due_date := 0, status := "Overdue" }

/-- A store holding just `invOver`. -/
def dbOver : DB := { invoices := [invOver], payments := [], students := [] }

/-- A payment body paying 50 against invoice 1 (defaulted `Completed`). -/
def payHalf : PaymentData :=
  { invoice_id := some 1, payment_method := some "cash", amount := some 50
    transaction_id := none, status := none }

/-- A payment body paying 40 against invoice 1 (defaulted `Completed`). -/
def payForty : PaymentData :=
  { invoice_id := some 1, payment_method := some "cash", amount := some 40
    transaction_id := none, status := none }

/-- A payment body paying the full 100 against invoice 1 with the
caller-supplied status `Failed`. -/
def payFailed : PaymentData :=
  { invoice_id := some 1, payment_method := some "cash", amount := some 100
    transaction_id := none, status := some "Failed" }

/-- The empty query string. -/
def argsNone : ListArgs :=
  { student_id := none, status := none, page := none, per_page := none }

/-- The student caller owning the profile of student 7 in `dbA`. -/
def cStudent : Caller := { user_id := 3, role_type := "student" }

/-- A parent caller. -/
def cParent : Caller := { user_id := 9, role_type := "parent" }

/-- An overdue-by-5-days Pending invoice with id 1. -/
def invT1 : Invoice :=
  { invoice_id := 1, student_id := 1, fee_id := 1, invoice_number := "INV000001"
    amount := 100, discount := 0, total_amount := 100
    issue_date := 0, due_date := 0, status := "Pending" }

/-- An overdue-by-5-days Pending invoice with id 2. -/
def invT2 : Invoice :=
  { invoice_id := 2, student_id := 1, fee_id := 1, invoice_number := "INV000002"
    amount := 100, discount := 0, total_amount := 100
    issue_date := 0, due_date := 0, status := "Pending" }

/-- A store whose invoice rows are iterated in descending id order. -/
def dbTie : DB := { invoices := [invT2, invT1], payments := [], students := [] }

/-- A store holding the same two invoices in ascending id order. -/
def dbAsc : DB := { invoices := [invT1, invT2], payments := [], students := [] }

/-- C1: a payment-creation call whose amount strictly exceeds the invoice's
outstanding balance fails with the 400 ValidationError
"Payment amount exceeds outstanding balance", creates no payment row, and
leaves every invoice (status and balance included) unchanged — the returned
store is the input store. -/
theorem claim_C1_overpayment_rejected (db : DB) (caller : Caller)
    (data : PaymentData) (iid : Nat) (inv : Invoice) (a : ℚ)
    (hinv : data.invoice_id = some iid) (hiid : iid ≠ 0)
    (hpm : strFalsy data.payment_method = false)
    (hamt : data.amount = some a) (hpos : 0 < a)
    (hfind : findInvoice db iid = some inv)
    (hauth : paymentAuth db caller inv = true)
    (hexceeds : calculate_balance db inv < a) :
    create_payment db caller data =
      (.err 400 "Payment amount exceeds outstanding balance", db) := by
  have hane : a ≠ 0 := hpos.ne'
  have hnle : ¬ a ≤ 0 := not_le.mpr hpos
  simp [create_payment, hinv, hamt, hfind, hauth, hpm, natFalsy, ratFalsy,
    hiid, hane, hnle, hexceeds]

/-- Witness for C1 at a concrete input: paying 150 against an invoice whose
outstanding balance is 100. -/
theorem claim_C1_witness :
    calculate_balance dbA invA < 150 ∧
    create_payment dbA cAdmin payTooMuch =
      (.err 400 "Payment amount exceeds outstanding balance", dbA) :=
  ⟨by norm_num [calculate_balance, dbA, invA],
   claim_C1_overpayment_rejected dbA cAdmin payTooMuch 1 invA 150 rfl
     (by decide) (by decide) rfl (by norm_num) (by decide)
     (by decide) (by norm_num [calculate_balance, dbA, invA])⟩

/-- C4: a payment-creation call with `amount ≤ 0` fails with a ValidationError
(HTTP 400 — "amount is required" when the amount is 0, because Python
truthiness makes 0 fail the required-field check, and
"Payment amount must be positive" when it is negative) and creates no payment
row: the returned store is the input store. -/
theorem claim_C4_nonpositive_amount_rejected (db : DB) (caller : Caller)
    (data : PaymentData) (iid : Nat) (inv : Invoice) (a : ℚ)
    (hinv : data.invoice_id = some iid) (hiid : iid ≠ 0)
    (hpm : strFalsy data.payment_method = false)
    (hamt : data.amount = some a) (hle : a ≤ 0)
    (hfind : findInvoice db iid = some inv)
    (hauth : paymentAuth db caller inv = true) :
    ∃ m, create_payment db caller data = (.err 400 m, db) := by
  by_cases h0 : a = 0
  · refine ⟨"amount is required", ?_⟩
    simp [create_payment, hinv, hamt, hpm, natFalsy, ratFalsy, hiid, h0]
  · refine ⟨"Payment amount must be positive", ?_⟩
    simp [create_payment, hinv, hamt, hfind, hauth, hpm, natFalsy, ratFalsy,
      hiid, h0, hle]

/-- Witness for C4 at a concrete input: paying −5 against invoice 1. -/
theorem claim_C4_witness :
    ((-5 : ℚ) ≤ 0) ∧
    ∃ m, create_payment dbA cAdmin payNegative = (.err 400 m, dbA) :=
  ⟨by norm_num,
   claim_C4_nonpositive_amount_rejected dbA cAdmin payNegative 1 invA (-5) rfl
     (by decide) (by decide) rfl (by norm_num) (by decide) (by decide)⟩

theorem invNum_one : "INV" ++ zeroPad 6 1 = "INV000001" := by decide

theorem invNum_two : "INV" ++ zeroPad 6 2 = "INV000002" := by decide

/-- C3: `create_invoice` has no `discount > amount` check — a call with
discount 100 against amount 50 succeeds (HTTP 201) and persists an invoice
with `total_amount = −50 < 0`, contradicting the claim that such a call fails
with a ValidationError and that no persisted invoice has a negative total. -/
theorem claim_C3_negative_total_is_persisted :
    create_invoice 0 emptyDB cAdmin invoiceReqNeg =
      (.ok 201 invNeg, { emptyDB with invoices := [invNeg] }) ∧
    invNeg.total_amount < 0 := by
  constructor
  · norm_num [create_invoice, emptyDB, cAdmin, invoiceReqNeg, invNeg, natFalsy,
      ratFalsy, invNum_one, initialStatus]
  · norm_num [invNeg]

/-- C8: every invoice persisted by a successful `create_invoice` call has its
status initialized to `Pending`, except that it is `Paid` when
`total_amount ≤ 0` (the initial status is spec-modelled: the `Invoice` model
holding the default is not among the provided sources). -/
theorem claim_C8_initial_invoice_status (today : Int) (db : DB)
    (caller : Caller) (data : InvoiceData) (inv : Invoice)
    (h : (create_invoice today db caller data).1 = .ok 201 inv) :
    inv.status = if inv.total_amount ≤ 0 then "Paid" else "Pending" := by
  unfold create_invoice at h
  split at h
  · exact absurd h (by simp)
  split at h
  · exact absurd h (by simp)
  split at h
  · exact absurd h (by simp)
  split at h
  · exact absurd h (by simp)
  split at h
  · exact absurd h (by simp)
  have hinv : inv = _ := (ApiResult.ok.injEq _ _ _ _).mp h.symm |>.2
  subst hinv
  simp [initialStatus]

/-- Witness for C8 at a concrete input: creating a 100-amount invoice on an
empty store initializes its status to `Pending`. -/
theorem claim_C8_witness :
    invB.status = if invB.total_amount ≤ 0 then "Paid" else "Pending" :=
  claim_C8_initial_invoice_status 0 emptyDB cAdmin invoiceReqOk invB
    (by norm_num [create_invoice, emptyDB, cAdmin, invoiceReqOk, invB, natFalsy,
      ratFalsy, invNum_one, initialStatus])

/-- C7: a successful invoice creation labels the new invoice
`"INV" ++ (count + 1)` zero-padded to 6 digits, where `count` is the total
invoice count at call time; a second successful creation uses the strictly
larger counter `count + 2`, so on a single-threaded sequence of creations the
labels' counters are monotonically increasing. -/
theorem claim_C7_sequential_invoice_numbers (t1 t2 : Int) (db db2 db3 : DB)
    (c1 c2 : Caller) (d1 d2 : InvoiceData) (inv1 inv2 : Invoice)
    (h1 : create_invoice t1 db c1 d1 = (.ok 201 inv1, db2))
    (h2 : create_invoice t2 db2 c2 d2 = (.ok 201 inv2, db3)) :
    inv1.invoice_number = "INV" ++ zeroPad 6 (db.invoices.length + 1) ∧
    inv2.invoice_number = "INV" ++ zeroPad 6 (db.invoices.length + 2) ∧
    db.invoices.length + 1 < db.invoices.length + 2 := by
  have step : ∀ (t : Int) (dbx dby : DB) (c : Caller) (d : InvoiceData)
      (inv : Invoice), create_invoice t dbx c d = (.ok 201 inv, dby) →
      inv.invoice_number = "INV" ++ zeroPad 6 (dbx.invoices.length + 1) ∧
      dby.invoices.length = dbx.invoices.length + 1 := by
    intro t dbx dby c d inv h
    unfold create_invoice at h
    split at h
    · exact absurd h (by simp)
    split at h
    · exact absurd h (by simp)
    split at h
    · exact absurd h (by simp)
    split at h
    · exact absurd h (by simp)
    split at h
    · exact absurd h (by simp)
    obtain ⟨hres, hdb⟩ := Prod.mk.injEq .. |>.mp h
    have hinv : inv = _ := (ApiResult.ok.injEq _ _ _ _).mp hres.symm |>.2
    subst hinv
    subst hdb
    simp
  obtain ⟨hn1, hl1⟩ := step t1 db db2 c1 d1 inv1 h1
  obtain ⟨hn2, hl2⟩ := step t2 db2 db3 c2 d2 inv2 h2
  refine ⟨hn1, ?_, by omega⟩
  rw [hn2, hl1]

/-- Witness for C7 at a concrete input: two successive creations on an empty
store are labelled with counters 1 and 2. -/
theorem claim_C7_witness :
    invB.invoice_number = "INV" ++ zeroPad 6 (emptyDB.invoices.length + 1) ∧
    invB2.invoice_number = "INV" ++ zeroPad 6 (emptyDB.invoices.length + 2) ∧
    emptyDB.invoices.length + 1 < emptyDB.invoices.length + 2 :=
  claim_C7_sequential_invoice_numbers 0 0 emptyDB
    { emptyDB with invoices := [invB] }
    { emptyDB with invoices := [invB, invB2] } cAdmin cAdmin invoiceReqOk
    invoiceReqOk invB invB2
    (by norm_num [create_invoice, emptyDB, cAdmin, invoiceReqOk, invB, natFalsy,
      ratFalsy, invNum_one, initialStatus])
    (by norm_num [create_invoice, emptyDB, cAdmin, invoiceReqOk, invB, invB2,
      natFalsy, ratFalsy, invNum_two, initialStatus])

theorem create_payment_success_eq (db : DB) (caller : Caller)
    (data : PaymentData) (iid : Nat) (inv : Invoice) (a : ℚ)
    (hinv : data.invoice_id = some iid) (hiid : iid ≠ 0)
    (hpm : strFalsy data.payment_method = false)
    (hamt : data.amount = some a) (hpos : 0 < a)
    (hfind : findInvoice db iid = some inv)
    (hauth : paymentAuth db caller inv = true)
    (hle : a ≤ calculate_balance db inv) :
    create_payment db caller data =
      (.ok 201 (newPayment db caller data inv a),
        postDB db caller data inv a) := by
  have hane : a ≠ 0 := hpos.ne'
  have hnle : ¬ a ≤ 0 := not_le.mpr hpos
  have hnlt : ¬ calculate_balance db inv < a := not_lt.mpr hle
  simp [create_payment, hinv, hamt, hfind, hauth, hpm, natFalsy, ratFalsy,
    hiid, hane, hnle, hnlt, newPayment, paymentStatusUpdate, postDB]

theorem calculate_balance_congr (db1 db2 : DB) (i1 i2 : Invoice)
    (hps : db1.payments = db2.payments) (hid : i1.invoice_id = i2.invoice_id)
    (ht : i1.total_amount = i2.total_amount) :
    calculate_balance db1 i1 = calculate_balance db2 i2 := by
  simp [calculate_balance, hps, hid, ht]

theorem calculate_balance_append (invs1 invs2 : List Invoice)
    (ps : List Payment) (sts1 sts2 : List StudentRec) (p : Payment)
    (j : Invoice) :
    calculate_balance { invoices := invs1, payments := ps ++ [p], students := sts1 } j =
      calculate_balance { invoices := invs2, payments := ps, students := sts2 } j -
        (if p.invoice_id = j.invoice_id ∧ p.status = "Completed" then p.amount
         else 0) := by
  by_cases hc : p.invoice_id = j.invoice_id ∧ p.status = "Completed"
  · simp [calculate_balance, List.filter_append, List.filter_cons, hc.1, hc.2]
    ring
  · have : ¬ (p.invoice_id == j.invoice_id && p.status == "Completed") = true := by
      simpa [Decidable.not_and_iff_or_not] using hc
    simp [calculate_balance, List.filter_append, List.filter_cons, this, hc]

theorem find?_update_status (l : List Invoice) (iid : Nat) (inv : Invoice)
    (st : String) (h : l.find? (fun i => i.invoice_id == iid) = some inv) :
    (l.map (fun i =>
        if i.invoice_id == inv.invoice_id then { i with status := st }
        else i)).find? (fun i => i.invoice_id == iid) =
      some { inv with status := st } := by
  induction l with
  | nil => simp at h
  | cons x xs ih =>
    by_cases hx : x.invoice_id = iid
    · rw [List.find?_cons_of_pos _ (by simpa using hx)] at h
      have hxinv : x = inv := by simpa using h
      subst hxinv
      simp [hx]
    · rw [List.find?_cons_of_neg _ (by simpa using hx)] at h
      have hinvid : inv.invoice_id = iid := by simpa using List.find?_some h
      rw [List.map_cons, List.find?_cons_of_neg _ (by
        by_cases hcond : x.invoice_id = inv.invoice_id
        · exact absurd (hcond.trans hinvid) hx
        · simp [hcond, hx]),
        ih h]

theorem findInvoice_postDB (db : DB) (caller : Caller) (data : PaymentData)
    (iid : Nat) (inv : Invoice) (a : ℚ)
    (h : findInvoice db iid = some inv) :
    findInvoice (postDB db caller data inv a) iid =
      some { inv with status := paymentStatusUpdate db inv a } := by
  simpa [postDB, findInvoice] using
    find?_update_status db.invoices iid inv (paymentStatusUpdate db inv a)
      (by simpa [findInvoice] using h)

theorem calculate_balance_postDB (db : DB) (caller : Caller)
    (data : PaymentData) (inv : Invoice) (a : ℚ) (j : Invoice)
    (hid : j.invoice_id = inv.invoice_id) :
    calculate_balance (postDB db caller data inv a) j =
      calculate_balance db j -
        (if data.status.getD "Completed" = "Completed" then a else 0) := by
  by_cases hc : data.status.getD "Completed" = "Completed" <;>
    · simp [postDB, calculate_balance, newPayment, List.filter_append,
        List.filter_cons, hid, hc]
      try ring

/-- Counterexample to C2 as stated: a Completed payment of 50 against the
Overdue invoice `invOver` succeeds and leaves the invoice with balance 50
(so `0 < balance < total_amount = 100`) but with status `Overdue`, not
`Partial` — the `Partial` transition only fires from a `Pending` status. -/
theorem claim_C2_counterexample :
    (create_payment dbOver cAdmin payHalf).1.isOk = true ∧
    (create_payment dbOver cAdmin payHalf).2.invoices.map Invoice.status =
      ["Overdue"] ∧
    (create_payment dbOver cAdmin payHalf).2.invoices.map
      (calculate_balance (create_payment dbOver cAdmin payHalf).2) = [50] ∧
    (create_payment dbOver cAdmin payHalf).2.invoices.map
      Invoice.total_amount = [100] ∧
    (0 : ℚ) < 50 ∧ (50 : ℚ) < 100 ∧ "Overdue" ≠ "Partial" := by
  norm_num [create_payment, dbOver, invOver, cAdmin, payHalf, natFalsy,
    strFalsy, ratFalsy, findInvoice, paymentAuth, findStudentByUser,
    calculate_balance, ApiResult.isOk]
  simp only [if_neg (show ¬("cash" = "") by decide),
    if_neg (show ¬("admin" = "student") by decide),
    if_neg (show ¬("Overdue" = "Pending") by decide)]
  norm_num [ApiResult.isOk, calculate_balance]
  decide

/-- C2 as amended: on every successful payment-creation call the invoice's
persisted status is recomputed as `Paid` when the new balance
(previous balance − amount) is ≤ 0, else `Partial` when the previous status
was `Pending`, else kept; hence, for a payment recorded with status
`Completed` against an invoice whose previous status was `Pending` or
`Partial`, a resulting balance of 0 forces status `Paid` and a resulting
balance strictly between 0 and `total_amount` forces status `Partial`. -/
theorem claim_C2_status_recomputation (db : DB) (caller : Caller)
    (data : PaymentData) (iid : Nat) (inv : Invoice) (a : ℚ)
    (hinv : data.invoice_id = some iid) (hiid : iid ≠ 0)
    (hpm : strFalsy data.payment_method = false)
    (hamt : data.amount = some a) (hpos : 0 < a)
    (hfind : findInvoice db iid = some inv)
    (hauth : paymentAuth db caller inv = true)
    (hle : a ≤ calculate_balance db inv)
    (hcompleted : data.status.getD "Completed" = "Completed")
    (hprior : inv.status = "Pending" ∨ inv.status = "Partial") :
    ∃ j, findInvoice (create_payment db caller data).2 iid = some j ∧
      j.status = (if calculate_balance db inv - a ≤ 0 then "Paid"
        else if inv.status = "Pending" then "Partial" else inv.status) ∧
      j.total_amount = inv.total_amount ∧
      calculate_balance (create_payment db caller data).2 j =
        calculate_balance db inv - a ∧
      (calculate_balance (create_payment db caller data).2 j = 0 →
        j.status = "Paid") ∧
      (0 < calculate_balance (create_payment db caller data).2 j →
        calculate_balance (create_payment db caller data).2 j <
          j.total_amount → j.status = "Partial") := by
  have hsnd : (create_payment db caller data).2 = postDB db caller data inv a := by
    rw [create_payment_success_eq db caller data iid inv a hinv hiid hpm hamt
      hpos hfind hauth hle]
  rw [hsnd]
  refine ⟨{ inv with status := paymentStatusUpdate db inv a },
    findInvoice_postDB db caller data iid inv a hfind, ?_, rfl, ?_, ?_, ?_⟩
  · simp [paymentStatusUpdate]
  · rw [calculate_balance_postDB db caller data inv a
        { inv with status := paymentStatusUpdate db inv a } rfl, if_pos hcompleted,
      calculate_balance_congr db db
        { inv with status := paymentStatusUpdate db inv a } inv rfl rfl rfl]
  · intro hz
    rw [calculate_balance_postDB db caller data inv a
        { inv with status := paymentStatusUpdate db inv a } rfl, if_pos hcompleted,
      calculate_balance_congr db db
        { inv with status := paymentStatusUpdate db inv a } inv rfl rfl rfl] at hz
    show paymentStatusUpdate db inv a = "Paid"
    unfold paymentStatusUpdate
    rw [if_pos (le_of_eq hz)]
  · intro hzpos hlt
    rw [calculate_balance_postDB db caller data inv a
        { inv with status := paymentStatusUpdate db inv a } rfl, if_pos hcompleted,
      calculate_balance_congr db db
        { inv with status := paymentStatusUpdate db inv a } inv rfl rfl rfl] at hzpos
    have hnp : ¬ calculate_balance db inv - a ≤ 0 := by linarith
    show paymentStatusUpdate db inv a = "Partial"
    unfold paymentStatusUpdate
    rw [if_neg hnp]
    rcases hprior with hp | hp
    · rw [if_pos (by simp [hp])]
    · rw [if_neg (by simp [hp]), hp]

/-- Witness for C2 at a concrete input: a Completed payment of 40 against the
Pending invoice `invA` (balance 100). -/
theorem claim_C2_witness :
    (0 : ℚ) < 40 ∧
    (∃ j, findInvoice (create_payment dbA cAdmin payForty).2 1 = some j ∧
      j.status = (if calculate_balance dbA invA - 40 ≤ 0 then "Paid"
        else if invA.status = "Pending" then "Partial" else invA.status) ∧
      j.total_amount = invA.total_amount ∧
      calculate_balance (create_payment dbA cAdmin payForty).2 j =
        calculate_balance dbA invA - 40 ∧
      (calculate_balance (create_payment dbA cAdmin payForty).2 j = 0 →
        j.status = "Paid") ∧
      (0 < calculate_balance (create_payment dbA cAdmin payForty).2 j →
        calculate_balance (create_payment dbA cAdmin payForty).2 j <
          j.total_amount → j.status = "Partial")) :=
  ⟨by norm_num,
   claim_C2_status_recomputation dbA cAdmin payForty 1 invA 40 rfl
     (by decide) (by decide) rfl (by norm_num) (by decide) (by decide)
     (by norm_num [calculate_balance, dbA, invA]) rfl (Or.inl rfl)⟩

/-- C9: the invoice-status update of a successful payment-creation call is
computed from the previous balance minus the payment amount irrespective of
the payment's caller-supplied status: a payment stored with a non-Completed
status still transitions the invoice exactly as a Completed payment would,
even though it leaves `calculate_balance` unchanged. -/
theorem claim_C9_status_update_ignores_payment_status (db : DB)
    (caller : Caller) (data : PaymentData) (iid : Nat) (inv : Invoice)
    (a : ℚ) (s : String)
    (hinv : data.invoice_id = some iid) (hiid : iid ≠ 0)
    (hpm : strFalsy data.payment_method = false)
    (hamt : data.amount = some a) (hpos : 0 < a)
    (hfind : findInvoice db iid = some inv)
    (hauth : paymentAuth db caller inv = true)
    (hle : a ≤ calculate_balance db inv)
    (hst : data.status = some s) (hsne : s ≠ "Completed") :
    (create_payment db caller data).1 =
      .ok 201 (newPayment db caller data inv a) ∧
    (newPayment db caller data inv a).status = s ∧
    ∃ j, findInvoice (create_payment db caller data).2 iid = some j ∧
      j.status = (if calculate_balance db inv - a ≤ 0 then "Paid"
        else if inv.status = "Pending" then "Partial" else inv.status) ∧
      calculate_balance (create_payment db caller data).2 j =
        calculate_balance db inv := by
  have heq := create_payment_success_eq db caller data iid inv a hinv hiid hpm
    hamt hpos hfind hauth hle
  have hsnd : (create_payment db caller data).2 = postDB db caller data inv a := by
    rw [heq]
  refine ⟨by rw [heq], by simp [newPayment, hst], ?_⟩
  rw [hsnd]
  refine ⟨{ inv with status := paymentStatusUpdate db inv a },
    findInvoice_postDB db caller data iid inv a hfind, ?_, ?_⟩
  · simp [paymentStatusUpdate]
  · rw [calculate_balance_postDB db caller data inv a
        { inv with status := paymentStatusUpdate db inv a } rfl,
      if_neg (by simp [hst, hsne]), sub_zero,
      calculate_balance_congr db db
        { inv with status := paymentStatusUpdate db inv a } inv rfl rfl rfl]

/-- Witness for C9 at a concrete input: a `Failed` payment of the full 100
against the Pending invoice `invA` still flips it to `Paid`, while its
balance stays 100. -/
theorem claim_C9_witness :
    ("Failed" ≠ "Completed") ∧
    ((create_payment dbA cAdmin payFailed).1 =
      .ok 201 (newPayment dbA cAdmin payFailed invA 100) ∧
    (newPayment dbA cAdmin payFailed invA 100).status = "Failed" ∧
    ∃ j, findInvoice (create_payment dbA cAdmin payFailed).2 1 = some j ∧
      j.status = (if calculate_balance dbA invA - 100 ≤ 0 then "Paid"
        else if invA.status = "Pending" then "Partial" else invA.status) ∧
      calculate_balance (create_payment dbA cAdmin payFailed).2 j =
        calculate_balance dbA invA) :=
  ⟨by decide,
   claim_C9_status_update_ignores_payment_status dbA cAdmin payFailed 1 invA
     100 "Failed" rfl (by decide) (by decide) rfl (by norm_num) (by decide)
     (by decide) (by norm_num [calculate_balance, dbA, invA]) rfl
     (by decide)⟩

theorem mem_insertDesc {α : Type} (key : α → Int) (x z : α) (l : List α) :
    z ∈ insertDesc key x l ↔ z = x ∨ z ∈ l := by
  induction l with
  | nil => simp [insertDesc]
  | cons y ys ih =>
    by_cases hc : key y < key x
    · simp [insertDesc, hc]
    · simp [insertDesc, hc, ih]
      tauto

theorem mem_sortDesc {α : Type} (key : α → Int) (z : α) (l : List α) :
    z ∈ sortDesc key l ↔ z ∈ l := by
  suffices h : ∀ acc, z ∈ l.foldl (fun acc x => insertDesc key x acc) acc ↔
      z ∈ acc ∨ z ∈ l by
    simpa [sortDesc] using h []
  induction l with
  | nil => intro acc; simp
  | cons x xs ih =>
    intro acc
    simp only [List.foldl_cons]
    rw [ih (insertDesc key x acc)]
    simp [mem_insertDesc]
    tauto

theorem mem_paginate {α : Type} (page pp : Int) (l : List α) (z : α)
    (h : z ∈ paginate page pp l) : z ∈ l := by
  simp only [paginate] at h
  exact List.drop_subset _ _ (List.take_subset _ _ h)

theorem paginate_length_le {α : Type} (page pp : Int) (l : List α) :
    (paginate page pp l).length ≤ pp.toNat := by
  simp only [paginate, List.length_take]
  exact min_le_left _ _

theorem statusFilter_subset (args : ListArgs) (l : List Invoice) (z : Invoice)
    (h : z ∈ statusFilter args l) : z ∈ l := by
  unfold statusFilter at h
  split at h
  · exact h
  · exact List.mem_of_mem_filter h

/-- C10: on every successful invoice-listing call, the effective page size
echoed in the response is `min(requested per_page, 100)` with 20 as the
default when `per_page` is absent, and the page never holds more than 100
invoices. -/
theorem claim_C10_per_page_capped (db : DB) (caller : Caller)
    (args : ListArgs) (v : InvoiceListing)
    (h : get_invoices db caller args = .ok 200 v) :
    v.per_page = min (args.per_page.getD 20) 100 ∧
    v.invoices.length ≤ 100 := by
  have hv : ∀ filtered : List Invoice, v = listingPage args filtered →
      v.per_page = min (args.per_page.getD 20) 100 ∧
      v.invoices.length ≤ 100 := by
    intro filtered hveq
    subst hveq
    refine ⟨rfl, ?_⟩
    have h1 := paginate_length_le (args.page.getD 1)
      (min (args.per_page.getD 20) 100)
      (sortDesc Invoice.issue_date filtered)
    have h2 : (min (args.per_page.getD 20) 100 : Int).toNat ≤ 100 := by omega
    simpa [listingPage] using le_trans h1 h2
  unfold get_invoices at h
  split at h
  · split at h
    · exact absurd h (by simp)
    · rw [ApiResult.ok.injEq] at h
      exact hv _ h.2.symm
  · split at h
    · exact absurd h (by simp)
    · split at h
      · exact absurd h (by simp)
      · simp only [ApiResult.ok.injEq] at h
        exact hv _ h.2.symm

/-- Witness for C10 at a concrete input: an admin listing over `dbA` with no
query parameters gets `per_page = min 20 100` and a page of at most 100. -/
theorem claim_C10_witness :
    ({ invoices := [invA], page := 1, per_page := 20 } : InvoiceListing).per_page =
      min (argsNone.per_page.getD 20) 100 ∧
    ({ invoices := [invA], page := 1, per_page := 20 } : InvoiceListing).invoices.length ≤ 100 :=
  claim_C10_per_page_capped dbA cAdmin argsNone _ (by decide)

/-- C6: on the invoice listing, a student caller gets the same response
whatever the `student_id` query filter says, and every invoice they receive is
their own; a parent caller is always denied with 403; an admin or staff caller
filtering by a (non-zero) `student_id` receives only that student's
invoices. -/
theorem claim_C6_role_scoped_listing (db : DB) (caller : Caller)
    (args : ListArgs) :
    (caller.role_type = "student" →
      (∀ x, get_invoices db caller { args with student_id := x } =
        get_invoices db caller args) ∧
      (∀ st, findStudentByUser db caller.user_id = some st →
        ∀ v, get_invoices db caller args = .ok 200 v →
          ∀ i ∈ v.invoices, i.student_id = st.student_id)) ∧
    (caller.role_type = "parent" →
      get_invoices db caller args = .err 403 "Access denied") ∧
    ((caller.role_type = "admin" ∨ caller.role_type = "staff") →
      ∀ s, args.student_id = some s → s ≠ 0 →
        ∀ v, get_invoices db caller args = .ok 200 v →
          ∀ i ∈ v.invoices, i.student_id = s) := by
  refine ⟨fun hrole => ⟨?_, ?_⟩, fun hrole => ?_, fun hrole s hs hs0 v hok i hi => ?_⟩
  · intro x
    cases hfind : findStudentByUser db caller.user_id with
    | none => simp [get_invoices, hrole, hfind]
    | some st => simp [get_invoices, hrole, hfind, listingPage, statusFilter]
  · intro st hst v hok i hi
    unfold get_invoices at hok
    rw [if_pos (by simp [hrole]), hst] at hok
    simp only [ApiResult.ok.injEq] at hok
    rw [← hok.2] at hi
    simp only [listingPage] at hi
    have h1 := mem_paginate _ _ _ _ hi
    rw [mem_sortDesc] at h1
    have h2 := statusFilter_subset _ _ _ h1
    simpa using (List.mem_filter.mp h2).2
  · unfold get_invoices
    rw [if_neg (by simp [hrole]), if_pos (by simp [hrole])]
  · have hnf : natFalsy args.student_id = false := by simp [hs, natFalsy, hs0]
    unfold get_invoices at hok
    rw [if_neg (by rcases hrole with h | h <;> simp [h]),
      if_neg (by rcases hrole with h | h <;> simp [h]),
      if_neg (by rcases hrole with h | h <;> simp [h])] at hok
    simp only [hnf, Bool.false_eq_true, if_false, ApiResult.ok.injEq] at hok
    rw [← hok.2] at hi
    simp only [listingPage] at hi
    have h1 := mem_paginate _ _ _ _ hi
    rw [mem_sortDesc] at h1
    have h2 := statusFilter_subset _ _ _ h1
    have h3 := (List.mem_filter.mp h2).2
    rw [hs] at h3
    simpa using h3

/-- Witness for C6 at concrete inputs over `dbA`: a student caller's listing
is unchanged by a `student_id` filter of 99, and a parent caller is denied. -/
theorem claim_C6_witness :
    get_invoices dbA cStudent { argsNone with student_id := some 99 } =
      get_invoices dbA cStudent argsNone ∧
    get_invoices dbA cParent argsNone = .err 403 "Access denied" :=
  ⟨((claim_C6_role_scoped_listing dbA cStudent argsNone).1 rfl).1 (some 99),
   (claim_C6_role_scoped_listing dbA cParent argsNone).2.1 rfl⟩

theorem insertDesc_pairwise {α : Type} (key : α → Int) (Q : α → α → Prop)
    (x : α) (acc : List α)
    (hacc : acc.Pairwise (fun a b => key b ≤ key a ∧ (key a = key b → Q a b)))
    (hx : ∀ y ∈ acc, Q y x) :
    (insertDesc key x acc).Pairwise
      (fun a b => key b ≤ key a ∧ (key a = key b → Q a b)) := by
  induction acc with
  | nil => simp [insertDesc]
  | cons y ys ih =>
    rw [List.pairwise_cons] at hacc
    obtain ⟨hy, hys⟩ := hacc
    by_cases hc : key y < key x
    · simp only [insertDesc, if_pos hc]
      rw [List.pairwise_cons]
      refine ⟨?_, List.pairwise_cons.mpr ⟨hy, hys⟩⟩
      intro z hz
      rcases List.mem_cons.mp hz with rfl | hz
      · exact ⟨le_of_lt hc, fun he => absurd he (by omega)⟩
      · have hzy := hy z hz
        exact ⟨le_trans hzy.1 (le_of_lt hc), fun he => absurd he (by omega)⟩
    · simp only [insertDesc, if_neg hc]
      rw [List.pairwise_cons]
      refine ⟨?_, ih hys (fun z hz => hx z (List.mem_cons_of_mem _ hz))⟩
      intro z hz
      rcases (mem_insertDesc key x z ys).mp hz with rfl | hz
      · exact ⟨not_lt.mp hc, fun _ => hx y (List.mem_cons_self _ _)⟩
      · exact hy z hz

theorem foldl_insertDesc_pairwise {α : Type} (key : α → Int)
    (Q : α → α → Prop) :
    ∀ (l acc : List α),
      acc.Pairwise (fun a b => key b ≤ key a ∧ (key a = key b → Q a b)) →
      (∀ y ∈ acc, ∀ x ∈ l, Q y x) → l.Pairwise Q →
      (l.foldl (fun acc x => insertDesc key x acc) acc).Pairwise
        (fun a b => key b ≤ key a ∧ (key a = key b → Q a b))
  | [], acc, hacc, _, _ => by simpa using hacc
  | x :: xs, acc, hacc, hcross, hl => by
    simp only [List.foldl_cons]
    rw [List.pairwise_cons] at hl
    apply foldl_insertDesc_pairwise key Q xs (insertDesc key x acc)
    · exact insertDesc_pairwise key Q x acc hacc
        (fun y hy => hcross y hy x (List.mem_cons_self _ _))
    · intro y hy z hz
      rcases (mem_insertDesc key x y acc).mp hy with rfl | hy
      · exact hl.1 z hz
      · exact hcross y hy z (List.mem_cons_of_mem _ hz)
    · exact hl.2

theorem sortDesc_pairwise {α : Type} (key : α → Int) (Q : α → α → Prop)
    (l : List α) (hl : l.Pairwise Q) :
    (sortDesc key l).Pairwise
      (fun a b => key b ≤ key a ∧ (key a = key b → Q a b)) := by
  simpa [sortDesc] using
    foldl_insertDesc_pairwise key Q l [] (by simp) (by simp) hl

theorem pairwise_filterMap_of_pairwise {α β : Type} (f : α → Option β)
    (R : α → α → Prop) (S : β → β → Prop)
    (hf : ∀ a b, R a b → ∀ x, f a = some x → ∀ y, f b = some y → S x y) :
    ∀ l : List α, l.Pairwise R → (l.filterMap f).Pairwise S
  | [], _ => by simp
  | a :: l, h => by
    rw [List.pairwise_cons] at h
    rw [List.filterMap_cons]
    cases hfa : f a with
    | none => exact pairwise_filterMap_of_pairwise f R S hf l h.2
    | some x =>
      rw [List.pairwise_cons]
      refine ⟨?_, pairwise_filterMap_of_pairwise f R S hf l h.2⟩
      intro y hy
      obtain ⟨b, hb, hfb⟩ := List.mem_filterMap.mp hy
      exact hf a b (h.1 b hb) x hfa y hfb

theorem outstandingRow_eq_some (today : Int) (db : DB) (i : Invoice)
    (r : OutstandingRow) :
    outstandingRow today db i = some r ↔
      0 < calculate_balance db i ∧
      r = { invoice := i, outstanding_amount := calculate_balance db i
            days_overdue := max 0 (today - i.due_date) } := by
  have hmax : (if i.due_date < today then today - i.due_date else 0) =
      max 0 (today - i.due_date) := by
    split <;> omega
  simp only [outstandingRow, hmax]
  split
  next hpos =>
    constructor
    · intro h
      exact ⟨hpos, ((Option.some.injEq _ _).mp h).symm⟩
    · intro h
      rw [h.2]
  next hneg =>
    constructor
    · intro h
      exact absurd h (by simp)
    · intro h
      exact absurd h.1 hneg

/-- The row that `r ∈ get_outstanding_report today db` unpacks to. -/
theorem mem_outstanding_report (today : Int) (db : DB) (r : OutstandingRow) :
    r ∈ get_outstanding_report today db ↔
      ∃ i, i ∈ db.invoices ∧
        (i.status = "Pending" ∨ i.status = "Partial" ∨ i.status = "Overdue") ∧
        0 < calculate_balance db i ∧
        r = { invoice := i, outstanding_amount := calculate_balance db i
              days_overdue := max 0 (today - i.due_date) } := by
  unfold get_outstanding_report
  rw [mem_sortDesc, List.mem_filterMap]
  constructor
  · rintro ⟨i, hi, hrow⟩
    have him := List.mem_filter.mp hi
    have hr := (outstandingRow_eq_some today db i r).mp hrow
    exact ⟨i, him.1, by simpa [or_assoc] using him.2, hr.1, hr.2⟩
  · rintro ⟨i, hi, hst, hbal, hr⟩
    exact ⟨i, List.mem_filter.mpr ⟨hi, by simpa [or_assoc] using hst⟩,
      (outstandingRow_eq_some today db i r).mpr ⟨hbal, hr⟩⟩

/-- C5 as amended: the outstanding report returns exactly the invoices with
status in {Pending, Partial, Overdue} and balance > 0 (anything with
balance ≤ 0 is excluded), each annotated with
`days_overdue = max(0, today − due_date)`, sorted descending by
`days_overdue`; ties keep the stored row order, so they are broken by
invoice_id ascending whenever the invoice table is stored in ascending
invoice_id order (the hypothesis below) — the source itself does not order
tied rows. -/
theorem claim_C5_outstanding_report_amended (today : Int) (db : DB)
    (hids : db.invoices.Pairwise (fun i j => i.invoice_id < j.invoice_id)) :
    (∀ r, r ∈ get_outstanding_report today db ↔
      ∃ i, i ∈ db.invoices ∧
        (i.status = "Pending" ∨ i.status = "Partial" ∨ i.status = "Overdue") ∧
        0 < calculate_balance db i ∧
        r = { invoice := i, outstanding_amount := calculate_balance db i
              days_overdue := max 0 (today - i.due_date) }) ∧
    (get_outstanding_report today db).Pairwise (fun r s =>
      s.days_overdue ≤ r.days_overdue ∧
      (r.days_overdue = s.days_overdue →
        r.invoice.invoice_id < s.invoice.invoice_id)) := by
  refine ⟨fun r => mem_outstanding_report today db r, ?_⟩
  unfold get_outstanding_report
  have hrows := pairwise_filterMap_of_pairwise (outstandingRow today db)
    (fun i j => i.invoice_id < j.invoice_id)
    (fun r s : OutstandingRow => r.invoice.invoice_id < s.invoice.invoice_id)
    (by
      intro a b hab x hx y hy
      have hxa : x.invoice = a := by
        rw [((outstandingRow_eq_some today db a x).mp hx).2]
      have hyb : y.invoice = b := by
        rw [((outstandingRow_eq_some today db b y).mp hy).2]
      rw [hxa, hyb]
      exact hab)
    (db.invoices.filter (fun i =>
      i.status == "Pending" || i.status == "Partial" || i.status == "Overdue"))
    (List.Pairwise.filter _ hids)
  exact sortDesc_pairwise (fun r : OutstandingRow => r.days_overdue)
    (fun r s : OutstandingRow => r.invoice.invoice_id < s.invoice.invoice_id)
    _ hrows

/-- Counterexample to C5 as stated: on a store iterating its two equally
overdue invoices in the order id 2, id 1, the report keeps that order
(Python's stable sort), so its ties are not broken by invoice_id ascending —
nothing in the source orders tied rows. -/
theorem claim_C5_counterexample :
    (get_outstanding_report 5 dbTie).map (fun r => r.invoice.invoice_id) =
      [2, 1] ∧
    (get_outstanding_report 5 dbTie).map (fun r => r.days_overdue) = [5, 5] ∧
    ¬ (get_outstanding_report 5 dbTie).Pairwise (fun r s =>
        r.days_overdue = s.days_overdue →
        r.invoice.invoice_id < s.invoice.invoice_id) := by
  have hrep : get_outstanding_report 5 dbTie =
      [{ invoice := invT2, outstanding_amount := 100, days_overdue := 5 },
       { invoice := invT1, outstanding_amount := 100, days_overdue := 5 }] := by
    norm_num [get_outstanding_report, dbTie, invT1, invT2, outstandingRow,
      calculate_balance, sortDesc, insertDesc, List.filterMap_cons,
      List.filter_cons, List.foldl_cons]
  rw [hrep]
  refine ⟨rfl, rfl, ?_⟩
  intro hpair
  have := (List.pairwise_cons.mp hpair).1 _ (List.mem_cons_self _ _) rfl
  simp [invT1, invT2] at this

/-- Witness for the amended C5 at a concrete input: the store `dbAsc` is
id-ascending, and the report over it satisfies the amended claim. -/
theorem claim_C5_witness :
    (∀ r, r ∈ get_outstanding_report 5 dbAsc ↔
      ∃ i, i ∈ dbAsc.invoices ∧
        (i.status = "Pending" ∨ i.status = "Partial" ∨ i.status = "Overdue") ∧
        0 < calculate_balance dbAsc i ∧
        r = { invoice := i, outstanding_amount := calculate_balance dbAsc i
              days_overdue := max 0 (5 - i.due_date) }) ∧
    (get_outstanding_report 5 dbAsc).Pairwise (fun r s =>
      s.days_overdue ≤ r.days_overdue ∧
      (r.days_overdue = s.days_overdue →
        r.invoice.invoice_id < s.invoice.invoice_id)) :=
  claim_C5_outstanding_report_amended 5 dbAsc (by decide)

end SchoolFin

